import Mathlib

/-!
Shallow embedding of `src/osgPlugins/wms/ReaderWriterWMS.cpp` (osgEarth WMS
tile-source plugin), covering the `WMSSource` class: its constructor,
`createProfile`, `createURI`, `createImage` and `createHeightField`.

External collaborators (the capabilities / tileservice document readers, the
spatial-reference library, the image fetcher and the global registry) are
modelled as an `Env` of oracle functions; the identity of the returned
profile object (caller profile / registry singleton / freshly constructed /
tileservice-produced) is captured by the sum type `ProfileRef`.
Doubles are modelled as exact rationals.
-/

namespace WMSPlugin

/-- A rectangular extent: the four bounds (minx, miny, maxx, maxy). -/
structure GeoExtent where
  xMin : Rat
  yMin : Rat
  xMax : Rat
  yMax : Rat
deriving DecidableEq, Repr

/-- Values of `Profile::getProfileType()` (external `Profile` class). -/
inductive ProfileType where
  | TYPE_UNKNOWN : ProfileType
  | TYPE_GEODETIC : ProfileType
  | TYPE_MERCATOR : ProfileType
  | TYPE_LOCAL : ProfileType
deriving DecidableEq, Repr

/-- The caller-supplied map profile, as observed by `createProfile`:
its spatial reference (named by a string) and its profile type. -/
structure MapProfile where
  srs : String
  ptype : ProfileType
deriving DecidableEq, Repr

/-- The parsed WMS capabilities document: `suggestExtension()` and
`getLayerByName` (layer name to extent). -/
structure Capabilities where
  suggestExtension : String
  layers : List (String × GeoExtent)
deriving DecidableEq, Repr

/-- Lookup `Capabilities::getLayerByName` followed by `Layer::getExtents`. -/
def Capabilities.getLayerByName (c : Capabilities) (name : String) : Option GeoExtent :=
  (c.layers.find? (fun p => p.1 = name)).map (fun p => p.2)

/-- One tileservice tile pattern; `getPrototype()` is its request-template
fragment. -/
structure TilePattern where
  prototypeFragment : String
deriving DecidableEq, Repr

/-- The parsed JPL TileService document, as consumed by `createProfile`:
`getMatchingPatterns(layers, format, style, srs, w, h)` and
`createProfile(patterns)` (the latter abstracted to a profile identifier,
since only which object is returned matters here). -/
structure TileService where
  getMatchingPatterns : String → String → String → String → Int → Int → List TilePattern
  profileOf : List TilePattern → Nat

/-- Identity of the profile object returned by `WMSSource::createProfile`:
the exact caller-supplied map profile, the registry's canonical
global-geodetic singleton, a freshly constructed `Profile::create(srs,
minx, miny, maxx, maxy)`, or the profile produced by
`TileService::createProfile`. -/
inductive ProfileRef where
  | caller : ProfileRef
  | globalGeodetic : ProfileRef
  | fresh (srs : String) (minx miny maxx maxy : Rat) : ProfileRef
  | fromTileService (id : Nat) : ProfileRef
deriving DecidableEq, Repr

/-- The external world seen by `WMSSource`: the spatial-reference oracles
(`SpatialReference::create` validity, `isGeographic`, `isEquivalentTo`),
the two document readers, the image fetcher (`osgDB::readImageFile`,
an image being its list of sample values), and the registry's canonical
global-geodetic profile extent. -/
structure Env where
  srsValid : String → Bool
  srsGeographic : String → Bool
  srsEquivalent : String → String → Bool
  readCapabilities : String → Option Capabilities
  readTileService : String → Option TileService
  readImage : String → Option (List Rat)
  globalGeodeticExtent : GeoExtent

/-- The plugin options handed to the `WMSSource` constructor
(`options->getPluginData(...)`, absent keys are `none`). -/
structure PluginOptions where
  url : Option String := none
  layers : Option String := none
  style : Option String := none
  format : Option String := none
  wms_format : Option String := none
  capabilities_url : Option String := none
  tileservice_url : Option String := none
  elevation_unit : Option String := none
  tile_size : Option String := none
  default_tile_size : Option String := none
  srs : Option String := none
deriving DecidableEq, Repr

/-- osgEarth utility `as<int>(str, default)`: parse an integer, falling back to
the default when the parse fails. -/
def asInt (s : String) (fallback : Int) : Int :=
  (s.toInt?).getD fallback

/-- The mutable state of a `WMSSource` object (its data members;
`_prefix` is rendered as `baseURL`). -/
structure WMSSource where
  baseURL : String := ""
  layers : String := ""
  style : String := ""
  format : String := ""
  wms_format : String := ""
  srs : String := ""
  tileServiceURL : String := ""
  capabilitiesURL : String := ""
  tile_size : Int := 256
  elevation_unit : String := ""
  prototype : String := ""
deriving DecidableEq, Repr

/-- The constructor of `WMSSource`: copy each configured option into the
corresponding member (absent options leave the default-constructed empty
string), read the tile size from `tile_size` else `default_tile_size`
else 256, and default the elevation unit to `"m"` when it is empty. -/
def WMSSource.ofOptions (opts : PluginOptions) : WMSSource :=
  let eu := (opts.elevation_unit).getD ""
  { baseURL := (opts.url).getD ""
    layers := (opts.layers).getD ""
    style := (opts.style).getD ""
    format := (opts.format).getD ""
    wms_format := (opts.wms_format).getD ""
    srs := (opts.srs).getD ""
    tileServiceURL := (opts.tileservice_url).getD ""
    capabilitiesURL := (opts.capabilities_url).getD ""
    tile_size :=
      match opts.tile_size with
      | some s => asInt s 256
      | none =>
        match opts.default_tile_size with
        | some s => asInt s 256
        | none => 256
    elevation_unit := if eu = "" then "m" else eu
    prototype := "" }

/-- The separator `sep`: `'&'` when the prefix already contains `'?'`
(`_prefix.find_first_of('?') != npos`), else `'?'`. -/
def sepOf (src : WMSSource) : String :=
  if '?' ∈ src.baseURL.data then "&" else "?"

/-- The capabilities URL: the configured one, or derived from the prefix. -/
def capabilitiesURLOf (src : WMSSource) : String :=
  if src.capabilitiesURL = "" then
    src.baseURL ++ sepOf src ++ "SERVICE=WMS&VERSION=1.1.1&REQUEST=GetCapabilities"
  else src.capabilitiesURL

/-- The tileservice probe URL: the configured one, or derived. -/
def tileServiceURLOf (src : WMSSource) : String :=
  if src.tileServiceURL = "" then
    src.baseURL ++ sepOf src ++ "request=GetTileService"
  else src.tileServiceURL

/-- The format after defaulting: the configured format, else the
capabilities-suggested extension, else `"png"`. -/
def resolvedFormat (src : WMSSource) (caps : Capabilities) : String :=
  let f := if src.format = "" then caps.suggestExtension else src.format
  if f = "" then "png" else f

/-- The SRS after defaulting: the configured SRS, else `"EPSG:4326"`. -/
def resolvedSRS (src : WMSSource) : String :=
  if src.srs = "" then "EPSG:4326" else src.srs

/-- Everything of the canonical GetMap template up to and including
`"&BBOX="`. -/
def wmsHead (src : WMSSource) (caps : Capabilities) : String :=
  src.baseURL ++ sepOf src ++ "SERVICE=WMS&VERSION=1.1.1&REQUEST=GetMap" ++
  "&LAYERS=" ++ src.layers ++
  "&FORMAT=" ++ (if src.wms_format = "" then "image/" ++ resolvedFormat src caps
                 else src.wms_format) ++
  "&STYLES=" ++ src.style ++
  "&SRS=" ++ resolvedSRS src ++
  "&WIDTH=" ++ toString src.tile_size ++
  "&HEIGHT=" ++ toString src.tile_size ++
  "&BBOX="

/-- The canonical WMS GetMap request prototype built at lines 131-142. -/
def wmsPrototype (src : WMSSource) (caps : Capabilities) : String :=
  wmsHead src caps ++ "%lf,%lf,%lf,%lf"

/-- Strategy (a), lines 144-150: when the created WMS SRS is valid, a map
profile was supplied and its SRS is equivalent to the WMS SRS, reuse the
caller's profile object. -/
def callerStrategy (env : Env) (srs : String) (mapProfile : Option MapProfile) :
    Option ProfileRef :=
  match mapProfile with
  | some mp =>
    if env.srsValid srs = true ∧ env.srsEquivalent mp.srs srs = true then
      some ProfileRef.caller
    else none
  | none => none

/-- Strategy (b), lines 152-182: glean the extents from the layer list.
When the SRS is geographic and the layer extent equals the registry's
global-geodetic extent bound-for-bound, reuse the canonical singleton;
otherwise construct a fresh profile from the SRS and the layer bounds. -/
def layerStrategy (env : Env) (caps : Capabilities) (layers srs : String) :
    Option ProfileRef :=
  match caps.getLayerByName layers with
  | none => none
  | some ext =>
    if env.srsGeographic srs = true ∧ ext = env.globalGeodeticExtent then
      some ProfileRef.globalGeodetic
    else
      some (ProfileRef.fresh srs ext.xMin ext.yMin ext.xMax ext.yMax)

/-- Strategy (c), lines 184-188: last resort, reuse the caller's profile
when the SRS is geographic and the map profile is not purely local. -/
def fallbackStrategy (env : Env) (srs : String) (mapProfile : Option MapProfile) :
    Option ProfileRef :=
  match mapProfile with
  | some mp =>
    if env.srsGeographic srs = true ∧ mp.ptype ≠ ProfileType.TYPE_LOCAL then
      some ProfileRef.caller
    else none
  | none => none

/-- Method `WMSSource::createProfile(mapProfile, configPath)`, lines 100-223.
Returns the profile (or `none` on failure) together with the updated
object state (`_format`, `_srs`, `_capabilitiesURL`, `_tileServiceURL`
and `_prototype` are assigned along the way). A failed capabilities read
returns NULL immediately; a failed tileservice read is non-fatal; a
non-empty matching-pattern list overrides both the profile and the
prototype. -/
def WMSSource.createProfile (src : WMSSource) (env : Env)
    (mapProfile : Option MapProfile) : Option ProfileRef × WMSSource :=
  let capURL := capabilitiesURLOf src
  match env.readCapabilities capURL with
  | none => (none, { src with capabilitiesURL := capURL })
  | some caps =>
    let fmt := resolvedFormat src caps
    let srs := resolvedSRS src
    let result3 : Option ProfileRef :=
      match callerStrategy env srs mapProfile with
      | some r => some r
      | none =>
        match layerStrategy env caps src.layers srs with
        | some r => some r
        | none => fallbackStrategy env srs mapProfile
    let tsURL := tileServiceURLOf src
    match env.readTileService tsURL with
    | some ts =>
      match ts.getMatchingPatterns src.layers fmt src.style srs
          src.tile_size src.tile_size with
      | p :: rest =>
        (some (ProfileRef.fromTileService (ts.profileOf (p :: rest))),
         { src with
             format := fmt, srs := srs, capabilitiesURL := capURL,
             tileServiceURL := tsURL,
             prototype := src.baseURL ++ sepOf src ++ p.prototypeFragment
                          ++ "&." ++ fmt })
      | [] =>
        (result3,
         { src with
             format := fmt, srs := srs, capabilitiesURL := capURL,
             tileServiceURL := tsURL,
             prototype := wmsPrototype src caps ++ "&." ++ fmt })
    | none =>
      (result3,
       { src with
           format := fmt, srs := srs, capabilitiesURL := capURL,
           tileServiceURL := tsURL,
           prototype := wmsPrototype src caps ++ "&." ++ fmt })

/-- Fixed-point decimal rendering of one `%lf` directive: sign, integer
part, and six fractional digits (the C `printf` default precision),
rounding half away from zero. `scaled` is `|q| * 10^6` rounded to the
nearest integer, computed on the numerator and denominator directly. -/
def formatFixed (q : Rat) : String :=
  let an : Nat := q.num.natAbs
  let scaled : Nat := (2 * (an * 1000000) + q.den) / (2 * q.den)
  let ip := scaled / 1000000
  let fp := scaled % 1000000
  let fs := toString fp
  (if q.num < 0 then "-" else "") ++ toString ip ++ "." ++
    String.mk (List.replicate (6 - fs.length) '0') ++ fs

/-- The C `sprintf`, restricted to `%lf` directives: each `%lf` consumes the next
argument and renders it fixed-point; every other character is copied.
(A `%lf` with no argument left is C undefined behaviour; it is copied
literally here and never reached by the plugin, which always supplies
exactly four arguments.) -/
def sprintfLf : List Char → List Rat → List Char
  | [], _ => []
  | '%' :: 'l' :: 'f' :: rest, a :: args => (formatFixed a).data ++ sprintfLf rest args
  | c :: rest, args => c :: sprintfLf rest args

/-- A tile key, as observed by `createURI`: its geo extent's bounds. -/
structure TileKey where
  extent : GeoExtent
deriving DecidableEq, Repr

/-- Method `WMSSource::createURI(key)`, lines 252-260: `sprintf` the tile key's
bounds (minx, miny, maxx, maxy, in that order) into the prototype. -/
def WMSSource.createURI (src : WMSSource) (key : TileKey) : String :=
  String.mk (sprintfLf src.prototype.data
    [key.extent.xMin, key.extent.yMin, key.extent.xMax, key.extent.yMax])

/-- Method `WMSSource::createImage(key)`, lines 226-229: fetch the rendered URI. -/
def WMSSource.createImage (src : WMSSource) (env : Env) (key : TileKey) :
    Option (List Rat) :=
  env.readImage (src.createURI key)

/-- Modelled from the spec: `ImageToHeightFieldConverter::convert` is
osgEarth code not present under `src/`; per the spec it multiplies every
sample value by the scale factor and tolerates an absent image by
producing an empty/flat field. -/
def ImageToHeightFieldConverter.convert : Option (List Rat) → Rat → List Rat
  | some img, s => img.map (fun x => x * s)
  | none, _ => []

/-- Method `WMSSource::createHeightField(key)`, lines 232-250: fetch the image
(logging, not failing, when the fetch returns null), pick the scale
factor — `0.3048` exactly when the stored elevation unit equals `"ft"`,
else `1` — and hand both to the converter. -/
def WMSSource.createHeightField (src : WMSSource) (env : Env) (key : TileKey) :
    List Rat :=
  let image := src.createImage env key
  let scaleFactor : Rat := if src.elevation_unit = "ft" then 3048 / 10000 else 1
  ImageToHeightFieldConverter.convert image scaleFactor

/-- No tileservice pattern overrides the result of this resolve: either
the tileservice probe fails, or it matches no pattern. -/
def noTileServiceOverride (src : WMSSource) (env : Env) (caps : Capabilities) : Prop :=
  ∀ ts, env.readTileService (tileServiceURLOf src) = some ts →
    ts.getMatchingPatterns src.layers (resolvedFormat src caps) src.style
      (resolvedSRS src) src.tile_size src.tile_size = []

/-- The state written back by a resolve that is not overridden by a
tileservice pattern. -/
def resolvedState (src : WMSSource) (caps : Capabilities) : WMSSource :=
  { src with
      format := resolvedFormat src caps
      srs := resolvedSRS src
      capabilitiesURL := capabilitiesURLOf src
      tileServiceURL := tileServiceURLOf src
      prototype := wmsPrototype src caps ++ "&." ++ resolvedFormat src caps }

/-- The five-strategy profile selection (lines 144-188), in priority
order. -/
def selectProfile (env : Env) (caps : Capabilities) (src : WMSSource)
    (mapProfile : Option MapProfile) : Option ProfileRef :=
  match callerStrategy env (resolvedSRS src) mapProfile with
  | some r => some r
  | none =>
    match layerStrategy env caps src.layers (resolvedSRS src) with
    | some r => some r
    | none => fallbackStrategy env (resolvedSRS src) mapProfile

theorem createProfile_noTS (src : WMSSource) (env : Env)
    (mapProfile : Option MapProfile) (caps : Capabilities)
    (hcaps : env.readCapabilities (capabilitiesURLOf src) = some caps)
    (hts : noTileServiceOverride src env caps) :
    src.createProfile env mapProfile =
      (selectProfile env caps src mapProfile, resolvedState src caps) := by
  simp only [WMSSource.createProfile, hcaps]
  cases hr : env.readTileService (tileServiceURLOf src) with
  | none =>
    simp only [selectProfile, resolvedState]
  | some ts =>
    simp only [hts ts hr, selectProfile, resolvedState]

theorem createProfile_tsOverride (src : WMSSource) (env : Env)
    (mapProfile : Option MapProfile) (caps : Capabilities) (ts : TileService)
    (p : TilePattern) (rest : List TilePattern)
    (hcaps : env.readCapabilities (capabilitiesURLOf src) = some caps)
    (hts : env.readTileService (tileServiceURLOf src) = some ts)
    (hpat : ts.getMatchingPatterns src.layers (resolvedFormat src caps)
      src.style (resolvedSRS src) src.tile_size src.tile_size = p :: rest) :
    src.createProfile env mapProfile =
      (some (ProfileRef.fromTileService (ts.profileOf (p :: rest))),
       { src with
           format := resolvedFormat src caps
           srs := resolvedSRS src
           capabilitiesURL := capabilitiesURLOf src
           tileServiceURL := tileServiceURLOf src
           prototype := src.baseURL ++ sepOf src ++ p.prototypeFragment
                        ++ "&." ++ resolvedFormat src caps }) := by
  simp only [WMSSource.createProfile, hcaps, hts, hpat]

/-! Concrete fixtures used by the witness theorems. -/

def capsEx : Capabilities :=
  { suggestExtension := "jpg", layers := [("basic", ⟨-180, -90, 180, 90⟩)] }

def srcEx : WMSSource :=
  WMSSource.ofOptions { url := some "http://x/wms", layers := some "basic" }

def envEx : Env :=
  { srsValid := fun _ => true
    srsGeographic := fun _ => true
    srsEquivalent := fun _ _ => true
    readCapabilities := fun _ => some capsEx
    readTileService := fun _ => none
    readImage := fun _ => none
    globalGeodeticExtent := ⟨-180, -90, 180, 90⟩ }

def mpEx : MapProfile := { srs := "EPSG:4326", ptype := ProfileType.TYPE_GEODETIC }

def patEx : TilePattern := { prototypeFragment := "T=tile&BBOX=%lf,%lf,%lf,%lf" }

def tsEx : TileService :=
  { getMatchingPatterns := fun _ _ _ _ _ _ => [patEx]
    profileOf := fun ps => ps.length }

def envTSEx : Env := { envEx with readTileService := fun _ => some tsEx }

def envFailEx : Env := { envEx with readCapabilities := fun _ => none }

def keyEx : TileKey := { extent := ⟨-180, -90, 0, 90⟩ }

/-- Claim C1: if the created target reference is valid and equivalent (per
the external equivalence oracle) to the caller-supplied map profile's
reference, and no tileservice pattern overrides the result, `createProfile`
returns the caller's profile object itself, whatever the capabilities
document's layers are. -/
theorem c1_caller_profile_identity (src : WMSSource) (env : Env) (mp : MapProfile)
    (caps : Capabilities)
    (hcaps : env.readCapabilities (capabilitiesURLOf src) = some caps)
    (hvalid : env.srsValid (resolvedSRS src) = true)
    (hequiv : env.srsEquivalent mp.srs (resolvedSRS src) = true)
    (hts : noTileServiceOverride src env caps) :
    (src.createProfile env (some mp)).1 = some ProfileRef.caller := by
  rw [createProfile_noTS src env (some mp) caps hcaps hts]
  simp [selectProfile, callerStrategy, hvalid, hequiv]

theorem c1_caller_profile_identity_witness :
    envEx.readCapabilities (capabilitiesURLOf srcEx) = some capsEx ∧
    envEx.srsValid (resolvedSRS srcEx) = true ∧
    envEx.srsEquivalent mpEx.srs (resolvedSRS srcEx) = true ∧
    noTileServiceOverride srcEx envEx capsEx ∧
    (srcEx.createProfile envEx (some mpEx)).1 = some ProfileRef.caller :=
  ⟨rfl, rfl, rfl, fun _ h => Option.noConfusion h,
   c1_caller_profile_identity srcEx envEx mpEx capsEx rfl rfl rfl
     (fun _ h => Option.noConfusion h)⟩

/-- Claim C2: when the caller-equivalence strategy yields nothing, the
layer is found in the capabilities document and the target reference is
geographic (and no tileservice pattern overrides the result),
`createProfile` returns the registry's global-geodetic singleton exactly
when all four layer bounds equal the registry extent's bounds, and a
freshly constructed profile from the target reference and the layer
bounds otherwise. -/
theorem c2_global_geodetic_identity (src : WMSSource) (env : Env)
    (mp : Option MapProfile) (caps : Capabilities) (ext : GeoExtent)
    (hcaps : env.readCapabilities (capabilitiesURLOf src) = some caps)
    (hA : callerStrategy env (resolvedSRS src) mp = none)
    (hlayer : caps.getLayerByName src.layers = some ext)
    (hgeo : env.srsGeographic (resolvedSRS src) = true)
    (hts : noTileServiceOverride src env caps) :
    (src.createProfile env mp).1 =
      (if ext = env.globalGeodeticExtent then some ProfileRef.globalGeodetic
       else some (ProfileRef.fresh (resolvedSRS src)
                    ext.xMin ext.yMin ext.xMax ext.yMax)) := by
  rw [createProfile_noTS src env mp caps hcaps hts]
  simp only [selectProfile, hA, layerStrategy, hlayer, hgeo]
  by_cases hx : ext = env.globalGeodeticExtent <;> simp [hx]

theorem c2_global_geodetic_identity_witness :
    envEx.readCapabilities (capabilitiesURLOf srcEx) = some capsEx ∧
    callerStrategy envEx (resolvedSRS srcEx) none = none ∧
    capsEx.getLayerByName srcEx.layers = some ⟨-180, -90, 180, 90⟩ ∧
    envEx.srsGeographic (resolvedSRS srcEx) = true ∧
    noTileServiceOverride srcEx envEx capsEx ∧
    (srcEx.createProfile envEx none).1 = some ProfileRef.globalGeodetic := by
  refine ⟨rfl, rfl, by decide, rfl, fun _ h => Option.noConfusion h, ?_⟩
  have := c2_global_geodetic_identity srcEx envEx none capsEx ⟨-180, -90, 180, 90⟩
    rfl rfl (by decide) rfl (fun _ h => Option.noConfusion h)
  simpa using this

/-- Claim C3: with the capabilities fetch succeeding and the tileservice
probe returning a document that matches at least one pattern for
(layers, format, style, reference, tile size, tile size), the returned
profile is the one the tileservice document produces from the full
matching-pattern list, and the final request template is the prefix plus
separator plus the first pattern's fragment plus the format suffix. -/
theorem c3_tileservice_override (src : WMSSource) (env : Env)
    (mp : Option MapProfile) (caps : Capabilities) (ts : TileService)
    (p : TilePattern) (rest : List TilePattern)
    (hcaps : env.readCapabilities (capabilitiesURLOf src) = some caps)
    (hts : env.readTileService (tileServiceURLOf src) = some ts)
    (hpat : ts.getMatchingPatterns src.layers (resolvedFormat src caps)
      src.style (resolvedSRS src) src.tile_size src.tile_size = p :: rest) :
    (src.createProfile env mp).1 =
      some (ProfileRef.fromTileService (ts.profileOf (p :: rest))) ∧
    (src.createProfile env mp).2.prototype =
      src.baseURL ++ sepOf src ++ p.prototypeFragment
        ++ "&." ++ resolvedFormat src caps := by
  rw [createProfile_tsOverride src env mp caps ts p rest hcaps hts hpat]
  exact ⟨rfl, rfl⟩

theorem c3_tileservice_override_witness :
    envTSEx.readCapabilities (capabilitiesURLOf srcEx) = some capsEx ∧
    envTSEx.readTileService (tileServiceURLOf srcEx) = some tsEx ∧
    tsEx.getMatchingPatterns srcEx.layers (resolvedFormat srcEx capsEx)
      srcEx.style (resolvedSRS srcEx) srcEx.tile_size srcEx.tile_size = [patEx] ∧
    (srcEx.createProfile envTSEx none).1 =
      some (ProfileRef.fromTileService (tsEx.profileOf [patEx])) ∧
    (srcEx.createProfile envTSEx none).2.prototype =
      srcEx.baseURL ++ sepOf srcEx ++ patEx.prototypeFragment
        ++ "&." ++ resolvedFormat srcEx capsEx :=
  ⟨rfl, rfl, rfl,
   (c3_tileservice_override srcEx envTSEx none capsEx tsEx patEx [] rfl rfl rfl).1,
   (c3_tileservice_override srcEx envTSEx none capsEx tsEx patEx [] rfl rfl rfl).2⟩

/-- Claim C5: when the capabilities document cannot be read,
`createProfile` fails immediately: it returns no profile, synthesizes no
request template, and leaves every member except the derived
capabilities URL untouched (in particular the tileservice URL is never
derived, the probe never happens). -/
theorem c5_capabilities_failure_fatal (src : WMSSource) (env : Env)
    (mp : Option MapProfile)
    (hcaps : env.readCapabilities (capabilitiesURLOf src) = none) :
    (src.createProfile env mp).1 = none ∧
    (src.createProfile env mp).2 =
      { src with capabilitiesURL := capabilitiesURLOf src } := by
  refine ⟨?_, ?_⟩ <;> simp only [WMSSource.createProfile, hcaps]

theorem c5_capabilities_failure_fatal_witness :
    envFailEx.readCapabilities (capabilitiesURLOf srcEx) = none ∧
    (srcEx.createProfile envFailEx none).1 = none ∧
    (srcEx.createProfile envFailEx none).2 =
      { srcEx with capabilitiesURL := capabilitiesURLOf srcEx } :=
  ⟨rfl, (c5_capabilities_failure_fatal srcEx envFailEx none rfl).1,
   (c5_capabilities_failure_fatal srcEx envFailEx none rfl).2⟩

/-- Claim C6: with neither `format` nor `wms_format` configured (and no
tileservice override), the synthesized template's FORMAT parameter is
`"image/"` plus the capabilities-suggested extension, or `"image/png"`
when no extension is suggested. -/
theorem c6_default_format (src : WMSSource) (env : Env) (mp : Option MapProfile)
    (caps : Capabilities)
    (hf : src.format = "") (hwf : src.wms_format = "")
    (hcaps : env.readCapabilities (capabilitiesURLOf src) = some caps)
    (hts : noTileServiceOverride src env caps) :
    (src.createProfile env mp).2.prototype =
      src.baseURL ++ sepOf src ++ "SERVICE=WMS&VERSION=1.1.1&REQUEST=GetMap" ++
      "&LAYERS=" ++ src.layers ++
      "&FORMAT=" ++ ("image/" ++
        (if caps.suggestExtension = "" then "png" else caps.suggestExtension)) ++
      "&STYLES=" ++ src.style ++
      "&SRS=" ++ resolvedSRS src ++
      "&WIDTH=" ++ toString src.tile_size ++
      "&HEIGHT=" ++ toString src.tile_size ++
      "&BBOX=" ++ "%lf,%lf,%lf,%lf" ++ "&." ++
      (if caps.suggestExtension = "" then "png" else caps.suggestExtension) := by
  rw [createProfile_noTS src env mp caps hcaps hts]
  simp [resolvedState, wmsPrototype, wmsHead, resolvedFormat, hf, hwf]

theorem c6_default_format_witness :
    srcEx.format = "" ∧ srcEx.wms_format = "" ∧
    envEx.readCapabilities (capabilitiesURLOf srcEx) = some capsEx ∧
    noTileServiceOverride srcEx envEx capsEx ∧
    (srcEx.createProfile envEx none).2.prototype =
      srcEx.baseURL ++ sepOf srcEx ++ "SERVICE=WMS&VERSION=1.1.1&REQUEST=GetMap" ++
      "&LAYERS=" ++ srcEx.layers ++
      "&FORMAT=" ++ ("image/" ++
        (if capsEx.suggestExtension = "" then "png" else capsEx.suggestExtension)) ++
      "&STYLES=" ++ srcEx.style ++
      "&SRS=" ++ resolvedSRS srcEx ++
      "&WIDTH=" ++ toString srcEx.tile_size ++
      "&HEIGHT=" ++ toString srcEx.tile_size ++
      "&BBOX=" ++ "%lf,%lf,%lf,%lf" ++ "&." ++
      (if capsEx.suggestExtension = "" then "png" else capsEx.suggestExtension) :=
  ⟨rfl, rfl, rfl, fun _ h => Option.noConfusion h,
   c6_default_format srcEx envEx none capsEx rfl rfl rfl
     (fun _ h => Option.noConfusion h)⟩

/-- Claim C7: for the same fetched image, `createHeightField` with
elevation unit `"ft"` is the `"m"` result with every sample multiplied by
exactly `0.3048`, and every elevation unit other than `"ft"` behaves
exactly like `"m"` (scale factor 1). -/
theorem c7_feet_scale (src : WMSSource) (env : Env) (key : TileKey) :
    WMSSource.createHeightField { src with elevation_unit := "ft" } env key =
      (WMSSource.createHeightField { src with elevation_unit := "m" } env key).map
        (fun x => x * (3048 / 10000 : Rat)) ∧
    ∀ u : String, u ≠ "ft" →
      WMSSource.createHeightField { src with elevation_unit := u } env key =
        WMSSource.createHeightField { src with elevation_unit := "m" } env key := by
  constructor
  · simp only [WMSSource.createHeightField, WMSSource.createImage,
      WMSSource.createURI]
    cases env.readImage _ with
    | none => rfl
    | some img =>
      simp [ImageToHeightFieldConverter.convert]
  · intro u hu
    simp only [WMSSource.createHeightField, WMSSource.createImage,
      WMSSource.createURI]
    cases env.readImage _ with
    | none => rfl
    | some img =>
      simp [ImageToHeightFieldConverter.convert, hu]

theorem c7_feet_scale_witness :
    WMSSource.createHeightField { srcEx with elevation_unit := "ft" } envEx keyEx =
      (WMSSource.createHeightField { srcEx with elevation_unit := "m" } envEx keyEx).map
        (fun x => x * (3048 / 10000 : Rat)) ∧
    ("yd" : String) ≠ "ft" ∧
    WMSSource.createHeightField { srcEx with elevation_unit := "yd" } envEx keyEx =
      WMSSource.createHeightField { srcEx with elevation_unit := "m" } envEx keyEx :=
  ⟨(c7_feet_scale srcEx envEx keyEx).1, by decide,
   (c7_feet_scale srcEx envEx keyEx).2 "yd" (by decide)⟩

/-- Claim C8: `createHeightField` never propagates an image-fetch failure:
when the fetch of the rendered URI returns nothing, it hands a null image
to the external converter and returns the converter's degraded
(empty/flat) result. -/
theorem c8_heightfield_degraded (src : WMSSource) (env : Env) (key : TileKey)
    (himg : env.readImage (src.createURI key) = none) :
    src.createHeightField env key =
      ImageToHeightFieldConverter.convert none
        (if src.elevation_unit = "ft" then (3048 / 10000 : Rat) else 1) ∧
    src.createHeightField env key = [] := by
  refine ⟨?_, ?_⟩ <;>
    simp only [WMSSource.createHeightField, WMSSource.createImage, himg,
      ImageToHeightFieldConverter.convert]

theorem c8_heightfield_degraded_witness :
    envEx.readImage (srcEx.createURI keyEx) = none ∧
    srcEx.createHeightField envEx keyEx =
      ImageToHeightFieldConverter.convert none
        (if srcEx.elevation_unit = "ft" then (3048 / 10000 : Rat) else 1) ∧
    srcEx.createHeightField envEx keyEx = [] :=
  ⟨rfl, (c8_heightfield_degraded srcEx envEx keyEx rfl).1,
   (c8_heightfield_degraded srcEx envEx keyEx rfl).2⟩

/-- Claim C9, counterexample: configuring `elevation_unit = "feet"` leaves
the stored elevation unit as `"feet"`, which is neither `"m"` nor `"ft"`,
contradicting the claimed invariant that any value other than `"m"`/`"ft"`
is stored as `"m"`. -/
theorem c9_invariant_counterexample :
    (WMSSource.ofOptions { elevation_unit := some "feet" }).elevation_unit = "feet" ∧
    ¬((WMSSource.ofOptions { elevation_unit := some "feet" }).elevation_unit = "m" ∨
      (WMSSource.ofOptions { elevation_unit := some "feet" }).elevation_unit = "ft") := by
  constructor
  · rfl
  · decide

/-- Claim C9, amended: after construction the stored elevation unit is
`"m"` when the configured value is absent or empty, and otherwise is the
configured string unchanged (possibly outside {"m","ft"}). -/
theorem c9_elevation_unit_default (opts : PluginOptions) :
    (WMSSource.ofOptions opts).elevation_unit =
      (match opts.elevation_unit with
       | none => "m"
       | some u => if u = "" then "m" else u) := by
  cases h : opts.elevation_unit with
  | none => simp [WMSSource.ofOptions, h]
  | some u => by_cases hu : u = "" <;> simp [WMSSource.ofOptions, h, hu]

/-- Claim C10: the elevation-unit test in `createHeightField` is exact,
case-sensitive equality with `"ft"`: any configured non-empty unit other
than `"ft"` (for example `"FT"`) is stored unchanged by the constructor
and yields exactly the `"m"` behaviour. -/
theorem c10_case_sensitive_ft (opts : PluginOptions) (env : Env) (key : TileKey)
    (u : String) (hu : opts.elevation_unit = some u) (hne : u ≠ "")
    (hft : u ≠ "ft") :
    (WMSSource.ofOptions opts).elevation_unit = u ∧
    (WMSSource.ofOptions opts).createHeightField env key =
      WMSSource.createHeightField
        { WMSSource.ofOptions opts with elevation_unit := "m" } env key := by
  have hstore : (WMSSource.ofOptions opts).elevation_unit = u := by
    simp [WMSSource.ofOptions, hu, hne]
  refine ⟨hstore, ?_⟩
  simp only [WMSSource.createHeightField, WMSSource.createImage,
    WMSSource.createURI, hstore]
  cases env.readImage _ with
  | none => rfl
  | some img =>
    simp [ImageToHeightFieldConverter.convert, hft]

theorem c10_case_sensitive_ft_witness :
    ({ elevation_unit := some "FT" } : PluginOptions).elevation_unit = some "FT" ∧
    ("FT" : String) ≠ "" ∧ ("FT" : String) ≠ "ft" ∧
    (WMSSource.ofOptions { elevation_unit := some "FT" }).elevation_unit = "FT" ∧
    (WMSSource.ofOptions { elevation_unit := some "FT" }).createHeightField envEx keyEx =
      WMSSource.createHeightField
        { WMSSource.ofOptions { elevation_unit := some "FT" } with
            elevation_unit := "m" } envEx keyEx :=
  ⟨rfl, by decide, by decide,
   (c10_case_sensitive_ft { elevation_unit := some "FT" } envEx keyEx "FT"
     rfl (by decide) (by decide)).1,
   (c10_case_sensitive_ft { elevation_unit := some "FT" } envEx keyEx "FT"
     rfl (by decide) (by decide)).2⟩

theorem sprintfLf_cons_ne (c : Char) (l : List Char) (args : List Rat)
    (h : c ≠ '%') :
    sprintfLf (c :: l) args = c :: sprintfLf l args := by
  rw [sprintfLf.eq_def]
  split <;> simp_all

theorem sprintfLf_append_noPct (pre rest : List Char) (args : List Rat)
    (h : '%' ∉ pre) :
    sprintfLf (pre ++ rest) args = pre ++ sprintfLf rest args := by
  induction pre with
  | nil => rfl
  | cons c cs ih =>
    have hc : c ≠ '%' := fun e => h (by simp [e])
    have hcs : '%' ∉ cs := fun m => h (List.mem_cons_of_mem _ m)
    simp only [List.cons_append, sprintfLf_cons_ne c _ args hc, ih hcs]

theorem sprintfLf_nil (args : List Rat) : sprintfLf [] args = [] := by
  simp [sprintfLf]

theorem sprintfLf_noPct (l : List Char) (args : List Rat) (h : '%' ∉ l) :
    sprintfLf l args = l := by
  have := sprintfLf_append_noPct l [] args h
  simpa [sprintfLf_nil] using this

theorem sprintfLf_lf (r : List Char) (x : Rat) (xs : List Rat) :
    sprintfLf ('%' :: 'l' :: 'f' :: r) (x :: xs) =
      (formatFixed x).data ++ sprintfLf r xs := by
  simp [sprintfLf]

theorem sprintfLf_bbox (tail : List Char) (a b c d : Rat) :
    sprintfLf ("%lf,%lf,%lf,%lf".data ++ tail) [a, b, c, d] =
      (formatFixed a).data ++ ',' ::
        ((formatFixed b).data ++ ',' ::
          ((formatFixed c).data ++ ',' ::
            ((formatFixed d).data ++ sprintfLf tail []))) := by
  have hcomma : ∀ (r : List Char) (ys : List Rat),
      sprintfLf (',' :: r) ys = ',' :: sprintfLf r ys :=
    fun r ys => sprintfLf_cons_ne ',' r ys (by decide)
  show sprintfLf ('%' :: 'l' :: 'f' :: ',' :: '%' :: 'l' :: 'f' :: ',' ::
      '%' :: 'l' :: 'f' :: ',' :: '%' :: 'l' :: 'f' :: tail) [a, b, c, d] = _
  rw [sprintfLf_lf, hcomma, sprintfLf_lf, hcomma, sprintfLf_lf, hcomma,
    sprintfLf_lf]

/-- Claim C4: rendering the resolved (non-tileservice) template with a
tile key whose bounds are (minx, miny, maxx, maxy) produces a URI whose
BBOX parameter carries exactly those four values, in that order, as
fixed-point decimals: the URI is the template's head (up to and
including `"&BBOX="`), then the four formatted bounds separated by
commas, then the `"&."`-format suffix. (The side conditions say the
configured strings feed no stray `%` conversion into `sprintf`.) -/
theorem c4_bbox_roundtrip (src : WMSSource) (env : Env) (mp : Option MapProfile)
    (caps : Capabilities) (key : TileKey)
    (hcaps : env.readCapabilities (capabilitiesURLOf src) = some caps)
    (hts : noTileServiceOverride src env caps)
    (hhead : '%' ∉ (wmsHead src caps).data)
    (hfmt : '%' ∉ ("&." ++ resolvedFormat src caps).data) :
    WMSSource.createURI ((src.createProfile env mp).2) key =
      wmsHead src caps ++
      formatFixed key.extent.xMin ++ "," ++ formatFixed key.extent.yMin ++ "," ++
      formatFixed key.extent.xMax ++ "," ++ formatFixed key.extent.yMax ++
      "&." ++ resolvedFormat src caps := by
  have hd : (wmsPrototype src caps ++ "&." ++ resolvedFormat src caps).data
      = (wmsHead src caps).data ++
        ("%lf,%lf,%lf,%lf".data ++ ("&." ++ resolvedFormat src caps).data) := by
    simp [wmsPrototype, String.data_append, List.append_assoc]
  rw [createProfile_noTS src env mp caps hcaps hts]
  apply String.ext
  simp only [WMSSource.createURI, resolvedState]
  rw [hd, sprintfLf_append_noPct _ _ _ hhead, sprintfLf_bbox,
    sprintfLf_noPct _ _ hfmt]
  simp [String.data_append, List.append_assoc]

theorem c4_bbox_roundtrip_witness :
    envEx.readCapabilities (capabilitiesURLOf srcEx) = some capsEx ∧
    noTileServiceOverride srcEx envEx capsEx ∧
    '%' ∉ (wmsHead srcEx capsEx).data ∧
    '%' ∉ ("&." ++ resolvedFormat srcEx capsEx).data ∧
    WMSSource.createURI ((srcEx.createProfile envEx none).2) keyEx =
      wmsHead srcEx capsEx ++
      formatFixed keyEx.extent.xMin ++ "," ++ formatFixed keyEx.extent.yMin ++ "," ++
      formatFixed keyEx.extent.xMax ++ "," ++ formatFixed keyEx.extent.yMax ++
      "&." ++ resolvedFormat srcEx capsEx :=
  ⟨rfl, fun _ h => Option.noConfusion h, by decide, by decide,
   c4_bbox_roundtrip srcEx envEx none capsEx keyEx rfl
     (fun _ h => Option.noConfusion h) (by decide) (by decide)⟩

example :
    WMSSource.createURI ((srcEx.createProfile envEx none).2) keyEx =
      "http://x/wms?SERVICE=WMS&VERSION=1.1.1&REQUEST=GetMap&LAYERS=basic&FORMAT=image/jpg&STYLES=&SRS=EPSG:4326&WIDTH=256&HEIGHT=256&BBOX=-180.000000,-90.000000,0.000000,90.000000&.jpg" :=
  rfl

end WMSPlugin
